import Mathlib

/-!
Verification of the DepthOfField sample application
(src/DepthOfField/src/DepthOfFieldApp.cpp).

The application is a single event-driven class on top of the Cinder
framework.  We shallowly embed the host-side logic:

* machine floating-point numbers are modelled by exact rationals (ℚ);
* glm matrices built by translate(pos) * rotate(radians(angle), axis) are
  represented by the triple of constructing data (position, axis, angle in
  degrees), since those glm functions are pure and injective in this data;
* Cinder's global pseudo-random generator (Rand::randSeed, Rand::randVec3,
  Rand::randFloat), which is library code outside this repository, is kept
  abstract as a deterministic state machine over ℕ states, supplied as a
  parameter (RandModel);
* the camera's focal length and the sphere/ray intersection routine
  (Cinder library code) are abstract inputs of one fixed-tick update
  (TickEnv); the intersection oracle returns the near-intersection
  distance of the mouse ray with the teapot bounding sphere transformed by
  an instance matrix, or none when the ray misses it;
* GPU objects (shader programs) are opaque handles, and shader
  compilation results are abstract Except values.
-/

namespace DepthOfField

/-- Rational stand-in for the C++ floating point types. -/
abbrev Q := ℚ

/-- A 3-component vector over the rationals. -/
abbrev V3 := Q × Q × Q

/-- FLT_MAX, the sentinel used by the ray-casting loop in
update(double): (2 - 2^-23) * 2^127. -/
def fltMax : Q := (2 - (1 : Q) / 2 ^ 23) * 2 ^ 127

/-- The data determining one instance's model matrix:
transform = glm::translate(position) * glm::rotate(glm::radians(angleDeg), axis)
(lines 261-262 of DepthOfFieldApp.cpp).  Two such matrices are equal iff
their constructing data is equal, so we identify the matrix with the data. -/
structure TransformData where
  pos : V3
  axis : V3
  angleDeg : Q
  deriving DecidableEq

/-- Modelled from the spec: Cinder's global pseudo-random generator
(cinder/Rand.h, not part of this repository).  The state is abstract (ℕ);
seedFn models Rand::randSeed, vec3Fn models Rand::randVec3 and floatFn
models Rand::randFloat(a, b), each returning the drawn value and the
successor state. -/
structure RandModel where
  seedFn : ℕ → ℕ
  vec3Fn : ℕ → V3 × ℕ
  floatFn : Q → Q → ℕ → Q × ℕ

/-- The three random draws made for one instance in the fixed-tick update
loop (lines 258-259): axis = randVec3(), then randFloat(-180, 180), then
randFloat(1, 90).  Returns ((axis, a1, a2), next rng state). -/
def drawTriple (R : RandModel) (r : ℕ) : (V3 × Q × Q) × ℕ :=
  let av := R.vec3Fn r
  let f1 := R.floatFn (-180) 180 av.2
  let f2 := R.floatFn 1 90 f1.2
  ((av.1, f1.1, f2.1), f2.2)

/-- The grid coordinates (x, y, z) in the iteration order of the triple
loop (lines 254-256): z outermost, then y, then x, each from -4 to 4. -/
def gridCoords : List (ℤ × ℤ × ℤ) :=
  (List.range 9).flatMap fun zi =>
    (List.range 9).flatMap fun yi =>
      (List.range 9).map fun (xi : ℕ) => ((xi : ℤ) - 4, (yi : ℤ) - 4, (zi : ℤ) - 4)

/-- The instance transform for grid cell c: position = vec3(x, y, z) * 5
(line 257), with the given rotation axis and angle in degrees. -/
def mkTransform (c : ℤ × ℤ × ℤ) (axis : V3) (angleDeg : Q) : TransformData :=
  ⟨(5 * (c.1 : Q), 5 * (c.2.1 : Q), 5 * (c.2.2 : Q)), axis, angleDeg⟩

/-- Accumulator threaded through the instance loop of update(double):
the rng state, the running nearest hit distance (dist, line 247) and the
matrices written to the mapped instance buffer so far. -/
structure LoopAcc where
  rng : ℕ
  dist : Q
  mats : List TransformData

/-- One iteration of the instance loop (lines 256-274): draw axis and the
two angle components, angle = a1 + a2 * mTime (line 259), write the
transform, and if Shift is held test the transformed bounding sphere
against the mouse ray, keeping the smallest near distance. -/
def instStep (R : RandModel) (hit : TransformData → Option Q) (shift : Bool)
    (time : Q) (a : LoopAcc) (c : ℤ × ℤ × ℤ) : LoopAcc :=
  let d := drawTriple R a.rng
  let td := mkTransform c d.1.1 (d.1.2.1 + d.1.2.2 * time)
  ⟨d.2,
   if shift then
     match hit td with
     | some m => if m < a.dist then m else a.dist
     | none => a.dist
   else a.dist,
   a.mats ++ [td]⟩

/-- The matrices generated by running the loop bodies over cells cs
starting from rng state r: for each cell, the axis and the two angle
draws come from the rng chain, and the angle is a1 + a2 * time. -/
def genMats (R : RandModel) (time : Q) : ℕ → List (ℤ × ℤ × ℤ) → List TransformData
  | _, [] => []
  | r, c :: cs =>
    mkTransform c (drawTriple R r).1.1
        ((drawTriple R r).1.2.1 + (drawTriple R r).1.2.2 * time)
      :: genMats R time (drawTriple R r).2 cs

/-- The rng state after running the loop bodies over cells cs from r. -/
def genRng (R : RandModel) : ℕ → List (ℤ × ℤ × ℤ) → ℕ
  | r, [] => r
  | r, _ :: cs => genRng R (drawTriple R r).2 cs

/-- The running-minimum fold of the ray-casting test: starting from d,
replace the current value by each list element that is smaller
(lines 269-271: if (min < dist) dist = min). -/
def minDist (d : Q) : List Q → Q
  | [] => d
  | m :: ms => minDist (if m < d then m else d) ms

/-- Abstract per-tick inputs supplied by the Cinder camera: the focal
length returned by mCamera.getFocalLength() after setFov (line 239), and
the intersection oracle td ↦ mBounds.transformed(td).intersect(ray)
(lines 268-269), returning the near distance when the hit count is
positive. -/
structure TickEnv where
  focalLength : Q
  hit : TransformData → Option Q

/-- The f-stop table of update(double), line 242. -/
def fstops : List Q :=
  [7/10, 8/10, 1, 12/10, 14/10, 17/10, 2, 24/10, 28/10, 33/10, 4,
   48/10, 56/10, 67/10, 8, 95/10, 11/1]

/-- The labels of the "F-stop" UI enum parameter (setup, line 150). -/
def uiFstopLabels : List String :=
  ["0.7", "0.8", "1.0", "1.2", "1.4", "1.7", "2.0", "2.4", "2.8", "3.3",
   "4.0", "4.8", "5.6", "6.7", "8.0", "9.5", "11.0"]

/-- The numeric values of the 17 UI labels of uiFstopLabels. -/
def uiFstops : List Q :=
  [7/10, 8/10, 1, 12/10, 14/10, 17/10, 2, 24/10, 28/10, 33/10, 4,
   48/10, 56/10, 67/10, 8, 95/10, 11/1]

/-- The array access fstops[i] of line 243 (i is a C++ int; the UI
restricts it to 0..16, where the access is in bounds). -/
def fstopAt (i : ℤ) : Q := fstops.getD i.toNat 0

/-- The mutable application state touched by the fixed-tick update.  The
camera itself stays abstract (see TickEnv); instances mirrors the
contents of the mapped instance VBO. -/
structure AppState where
  mAperture : Q
  mFocalStop : ℤ
  mFocalPlane : Q
  mFocalLength : Q
  mFoV : Q
  mTime : Q
  mShiftDown : Bool
  rng : ℕ
  instances : List TransformData

/-- The instance loop of update(double), lines 253-277: fold the loop
body over the 729 grid cells, starting from the rng state seeded with
12345 (line 250), dist = FLT_MAX (line 247) and an empty buffer. -/
def tickLoop (R : RandModel) (env : TickEnv) (shift : Bool) (time : Q) : LoopAcc :=
  gridCoords.foldl (instStep R env.hit shift time) ⟨R.seedFn 12345, fltMax, []⟩

/-- The fixed-tick update DepthOfFieldApp::update(double), lines 228-283:
advance mTime, recompute focal length / focal plane clamp / aperture
(lines 238-243), reseed the generator with 12345, run the instance loop,
and apply auto-focus when Shift is held and a sphere was hit
(lines 280-282). -/
def tickUpdate (R : RandModel) (env : TickEnv) (dt : Q) (st : AppState) : AppState :=
  let time := st.mTime + dt
  let focalLength := env.focalLength
  let plane0 := max st.mFocalPlane focalLength
  let aperture := focalLength / fstopAt st.mFocalStop
  let a := tickLoop R env st.mShiftDown time
  let plane := if st.mShiftDown ∧ a.dist < fltMax then a.dist else plane0
  { st with mTime := time, mFocalLength := focalLength, mAperture := aperture,
            mFocalPlane := plane, rng := a.rng, instances := a.mats }

/-- The instance matrices produced by one fixed tick whose post-increment
simulation time is time: the loop draws from the generator freshly seeded
with 12345, so they depend only on time (given the generator). -/
def tickInstances (R : RandModel) (time : Q) : List TransformData :=
  genMats R time (R.seedFn 12345) gridCoords

/-- The near-intersection distances of the mouse ray with the 729
transformed bounding spheres of one tick, in loop order, keeping only the
instances the ray actually hits. -/
def hitDistances (R : RandModel) (env : TickEnv) (time : Q) : List Q :=
  (tickInstances R time).filterMap env.hit

/-- Whether the auto-focus assignment of lines 280-282 fires in a given
tick: Shift is held and the loop found a hit distance below FLT_MAX. -/
def autoFocusFired (R : RandModel) (env : TickEnv) (dt : Q) (st : AppState) : Bool :=
  decide (st.mShiftDown ∧ (tickLoop R env st.mShiftDown (st.mTime + dt)).dist < fltMax)

/-- The fixed time step of the outer update(), line 208: 1/60 s. -/
def timestep : Q := 1 / 60

/-- The catch-up loop of update(), lines 221-225: while the accumulator
holds at least one full time step, run one fixed tick and subtract the
step.  Returns the number of ticks run and the remaining accumulator. -/
def stepLoop (acc : Q) : ℕ × Q :=
  if h : timestep ≤ acc then
    let r := stepLoop (acc - timestep)
    (r.1 + 1, r.2)
  else
    (0, acc)
termination_by (⌊acc * 60⌋).toNat
decreasing_by
  have h1 : (1 : Q) ≤ acc * 60 := by
    rw [timestep] at h
    nlinarith
  have h2 : (1 : ℤ) ≤ ⌊acc * 60⌋ := by
    exact_mod_cast Int.le_floor.mpr (by exact_mod_cast h1)
  have h3 : (acc - timestep) * 60 = acc * 60 - 1 := by rw [timestep]; ring
  rw [h3, Int.floor_sub_one]
  omega

/-- The static timing state of the outer update(), lines 211-212: the
last observed wall-clock time and the accumulator. -/
structure FrameClock where
  time : Q
  accumulator : Q

/-- The outer per-frame update DepthOfFieldApp::update(), lines 207-226
(timing part; the Fbo (re)creation block of lines 173-205 is GPU resource
setup and is not modelled).  now is getElapsedSeconds(); the elapsed time
is added to the accumulator capped at 0.1 s (line 219), then the catch-up
loop runs.  Returns the number of fixed ticks run and the new clock. -/
def updateFrame (now : Q) (c : FrameClock) : ℕ × FrameClock :=
  let elapsed := now - c.time
  let time := c.time + elapsed
  let acc := c.accumulator + min elapsed (1 / 10)
  let r := stepLoop acc
  (r.1, ⟨time, r.2⟩)

/-- Opaque handle for a compiled GL shader program (gl::GlslProgRef). -/
abbrev Prog := ℕ

/-- The shader program slots written by reload(): the programs of the
three batches (none when the batch does not exist yet, cf. the
if (mTeapots) guards), and the two blur and the composite program refs
(none while still unloaded). -/
structure GlslState where
  teapots : Option Prog
  spheres : Option Prog
  background : Option Prog
  blur0 : Option Prog
  blur1 : Option Prog
  composite : Option Prog

/-- The outcome of each of the six gl::GlslProg::create calls of
reload(): ok with the new program, or error with the exception message
(exc.what()).  Compilation happens in the GL driver, outside this
repository, so the outcomes are abstract inputs. -/
structure ShaderEnv where
  teapotsRes : Except String Prog
  spheresRes : Except String Prog
  backgroundRes : Except String Prog
  hblurRes : Except String Prog
  vblurRes : Except String Prog
  compositeRes : Except String Prog

/-- One guarded batch block of reload() (lines 456-491): when the batch
exists, try to compile; on success replace its program, on failure keep
the old program and log the message.  Returns the new slot value and the
console output of the block. -/
def batchBlock (old : Option Prog) (res : Except String Prog) (msg : String) :
    Option Prog × List String :=
  match old with
  | none => (none, [])
  | some p =>
    match res with
    | .ok q => (some q, [])
    | .error e => (some p, [msg ++ e])

/-- One unguarded DoF-shader block of reload() (lines 494-526): try to
compile; on success store the new program, on failure keep the slot and
log the message. -/
def progBlock (old : Option Prog) (res : Except String Prog) (msg : String) :
    Option Prog × List String :=
  match res with
  | .ok q => (some q, [])
  | .error e => (old, [msg ++ e])

/-- DepthOfFieldApp::reload(), lines 454-527: the six compile attempts
run in sequence, each inside its own try/catch; the console messages are
collected in order. -/
def reload (env : ShaderEnv) (st : GlslState) : GlslState × List String :=
  let b1 := batchBlock st.teapots env.teapotsRes "Failed to load teapots shader: "
  let b2 := batchBlock st.spheres env.spheresRes "Failed to load spheres shader: "
  let b3 := batchBlock st.background env.backgroundRes "Failed to load background shader: "
  let b4 := progBlock st.blur0 env.hblurRes "Failed to load horizontal blur shader: "
  let b5 := progBlock st.blur1 env.vblurRes "Failed to load vertical blur shader: "
  let b6 := progBlock st.composite env.compositeRes "Failed to load composite shader: "
  (⟨b1.1, b2.1, b3.1, b4.1, b5.1, b6.1⟩,
   b1.2 ++ b2.2 ++ b3.2 ++ b4.2 ++ b5.2 ++ b6.2)

/-- The asset paths passed to loadAsset by the six GlslProg::create calls
of reload(), in call order (lines 458, 471, 482, 495, 505, 516). -/
def reloadAssetPaths : List String :=
  ["instanced.vert", "scene.frag",
   "instanced.vert", "debug.frag",
   "single.vert", "scene.frag",
   "blur.vert", "blur.frag",
   "blur.vert", "blur.frag",
   "composite.vert", "composite.frag"]

/-- Observable side effects of input handlers and setup. -/
inductive Effect where
  | loadAssetFile (path : String)
  | reloadShaders
  | quitApp
  | setFullScreen (flag : Bool)
  | togglePause
  deriving DecidableEq

/-- The key codes distinguished by keyDown (lines 427-445). -/
inductive KeyCode where
  | escape
  | space
  | keyF
  | keyR
  | other
  deriving DecidableEq

/-- DepthOfFieldApp::keyDown, lines 423-446: record the Shift state and
dispatch on the key code.  Returns the new mShiftDown and the effects. -/
def keyDown (shiftFromEvent : Bool) (fullscreen : Bool) (code : KeyCode) :
    Bool × List Effect :=
  (shiftFromEvent,
   match code with
   | .escape => if fullscreen then [.setFullScreen false] else [.quitApp]
   | .space => [.togglePause]
   | .keyF => [.setFullScreen (!fullscreen)]
   | .keyR => [.reloadShaders]
   | .other => [])

/-- The asset-loading and reload effects of DepthOfFieldApp::setup
(lines 94-95 load the two textures; line 167 calls reload()).  GL object
creation is resource setup and carries no claim-relevant effect. -/
def setupEffects : List Effect :=
  [.loadAssetFile "gold.png", .loadAssetFile "clay.png", .reloadShaders]

/-- The render targets of the draw() passes. -/
inductive RenderTarget where
  | fboSource
  | fboBlur0
  | fboBlur1
  | window
  deriving DecidableEq

/-- The draw commands issued inside the passes of draw(). -/
inductive DrawOp where
  | teapotsInstanced (n : ℕ)
  | background
  | boundingSpheres (n : ℕ)
  | fullScreenRect
  | paramsPanel
  deriving DecidableEq

/-- One pass of draw(): its target framebuffer, the framebuffers whose
textures it binds as inputs, and the draw commands it issues. -/
structure RenderPass where
  target : RenderTarget
  readsFrom : List RenderTarget
  ops : List DrawOp
  deriving DecidableEq

/-- The scene pass of draw(), lines 290-337: renders into mFboSource the
instanced teapots (line 314), then the background (line 329), then, only
when bounds display is on, the instanced wire spheres (line 335). -/
def scenePass (showBounds : Bool) : RenderPass :=
  ⟨.fboSource, [],
   [.teapotsInstanced (9 * 9 * 9), .background] ++
     if showBounds then [.boundingSpheres (9 * 9 * 9)] else []⟩

/-- The horizontal blur / downsample pass, lines 340-359: reads the
mFboSource color texture, renders a full-screen rect into mFboBlur[0]. -/
def horizontalBlurPass : RenderPass := ⟨.fboBlur0, [.fboSource], [.fullScreenRect]⟩

/-- The vertical blur pass, lines 362-382: reads both attachments of
mFboBlur[0], renders a full-screen rect into mFboBlur[1]. -/
def verticalBlurPass : RenderPass := ⟨.fboBlur1, [.fboBlur0], [.fullScreenRect]⟩

/-- The composite pass, lines 385-398: reads the mFboSource color texture
and both attachments of mFboBlur[1], renders to the window. -/
def compositePass : RenderPass := ⟨.window, [.fboSource, .fboBlur1], [.fullScreenRect]⟩

/-- The final mParams->draw() call, line 401. -/
def paramsPass : RenderPass := ⟨.window, [], [.paramsPanel]⟩

/-- DepthOfFieldApp::draw, lines 285-402: the passes in program order. -/
def draw (showBounds : Bool) : List RenderPass :=
  [scenePass showBounds, horizontalBlurPass, verticalBlurPass, compositePass, paramsPass]

/-- The list of (axis, a1, a2) draw triples obtained by running the
generator n times from state r.  It has no time argument: the draws of a
tick do not depend on the simulation time. -/
def drawsList (R : RandModel) : ℕ → ℕ → List (V3 × Q × Q)
  | _, 0 => []
  | r, n + 1 => (drawTriple R r).1 :: drawsList R (drawTriple R r).2 n

/-- The 729 draw triples of one tick, from the freshly seeded state. -/
def tickDraws (R : RandModel) : List (V3 × Q × Q) :=
  drawsList R (R.seedFn 12345) 729

/-- A concrete trivial generator used to instantiate theorems. -/
def rwModel : RandModel :=
  ⟨fun s => s, fun r => ((0, 0, 0), r + 1), fun a _ r => (a, r + 1)⟩

/-- A concrete tick environment whose ray hits the instances at grid
cells (0,0,0) and (1,0,0) at distances 3 and 2. -/
def envTwoHits : TickEnv :=
  ⟨1, fun td =>
    if td.pos = (0, 0, 0) then some 3
    else if td.pos = (5, 0, 0) then some 2
    else none⟩

/-- The hit pattern of envTwoHits expressed on grid coordinates. -/
def gHit : ℤ × ℤ × ℤ → Option Q := fun c =>
  if c = (0, 0, 0) then some 3 else if c = (1, 0, 0) then some 2 else none

/-- A concrete state with Shift held. -/
def stShift : AppState := ⟨1, 8, 10, 1, 25, 0, true, 0, []⟩

/-- A concrete state with Shift not held. -/
def stNoShift : AppState := ⟨1, 8, 10, 1, 25, 0, false, 0, []⟩

/-- A concrete state with Shift not held and mTime = 1. -/
def stTimeOne : AppState := ⟨1, 8, 10, 1, 25, 1, false, 0, []⟩

/-- A concrete state with Shift not held and mTime = 2. -/
def stTimeTwo : AppState := ⟨1, 8, 10, 1, 25, 2, false, 0, []⟩

theorem minDist_le_init (l : List Q) : ∀ d : Q, minDist d l ≤ d := by
  induction l with
  | nil => intro d; simp [minDist]
  | cons m ms ih =>
    intro d
    rw [minDist]
    split
    · exact le_trans (ih _) (le_of_lt (by assumption))
    · exact ih d

theorem minDist_le_mem (l : List Q) : ∀ d : Q, ∀ m ∈ l, minDist d l ≤ m := by
  induction l with
  | nil => intro d m hm; simp at hm
  | cons x xs ih =>
    intro d m hm
    rw [List.mem_cons] at hm
    rw [minDist]
    rcases hm with h | h
    · subst h
      rcases lt_or_ge m d with hlt | hge
      · rw [if_pos hlt]; exact minDist_le_init xs m
      · rw [if_neg (not_lt.mpr hge)]
        exact le_trans (minDist_le_init xs d) hge
    · exact ih _ m h

theorem minDist_eq_or_mem (l : List Q) : ∀ d : Q, minDist d l = d ∨ minDist d l ∈ l := by
  induction l with
  | nil => intro d; left; rfl
  | cons x xs ih =>
    intro d
    rw [minDist]
    split
    · rcases ih x with h | h
      · right; rw [h]; exact List.mem_cons_self x xs
      · right; exact List.mem_cons_of_mem x h
    · rcases ih d with h | h
      · left; exact h
      · right; exact List.mem_cons_of_mem x h

theorem foldl_instStep (R : RandModel) (hit : TransformData → Option Q) (shift : Bool)
    (time : Q) (cs : List (ℤ × ℤ × ℤ)) :
    ∀ a : LoopAcc,
      cs.foldl (instStep R hit shift time) a =
        ⟨genRng R a.rng cs,
         if shift then minDist a.dist ((genMats R time a.rng cs).filterMap hit)
         else a.dist,
         a.mats ++ genMats R time a.rng cs⟩ := by
  induction cs with
  | nil => intro a; cases a; simp [genRng, genMats, minDist]
  | cons c cs ih =>
    intro a
    rw [List.foldl_cons, ih]
    rw [genRng, genMats]
    rw [instStep]
    cases shift with
    | false => simp [minDist]
    | true =>
      simp only [if_pos]
      cases h : hit (mkTransform c (drawTriple R a.rng).1.1
          ((drawTriple R a.rng).1.2.1 + (drawTriple R a.rng).1.2.2 * time)) with
      | none => simp [List.filterMap_cons, h, minDist]
      | some m => simp [List.filterMap_cons, h, minDist]

theorem genMats_length (R : RandModel) (time : Q) :
    ∀ (cs : List (ℤ × ℤ × ℤ)) (r : ℕ), (genMats R time r cs).length = cs.length := by
  intro cs
  induction cs with
  | nil => intro r; rfl
  | cons c cs ih => intro r; rw [genMats]; simp [ih]

theorem genMats_eq_zipWith (R : RandModel) (time : Q) :
    ∀ (cs : List (ℤ × ℤ × ℤ)) (r : ℕ),
      genMats R time r cs =
        List.zipWith (fun c d => mkTransform c d.1 (d.2.1 + d.2.2 * time))
          cs (drawsList R r cs.length) := by
  intro cs
  induction cs with
  | nil => intro r; rfl
  | cons c cs ih =>
    intro r
    rw [genMats, List.length_cons, drawsList, List.zipWith_cons_cons, ih]

theorem tickLoop_spec (R : RandModel) (env : TickEnv) (shift : Bool) (time : Q) :
    tickLoop R env shift time =
      ⟨genRng R (R.seedFn 12345) gridCoords,
       if shift then minDist fltMax ((tickInstances R time).filterMap env.hit)
       else fltMax,
       tickInstances R time⟩ := by
  rw [tickLoop, foldl_instStep, tickInstances]
  rfl

theorem tickLoop_dist (R : RandModel) (env : TickEnv) (shift : Bool) (time : Q) :
    (tickLoop R env shift time).dist =
      if shift then minDist fltMax (hitDistances R env time) else fltMax := by
  rw [tickLoop_spec]
  rfl

theorem drawTriple_rwModel (r : ℕ) :
    drawTriple rwModel r = (((0, 0, 0), -180, 1), r + 3) := rfl

theorem genMats_rwModel (t : Q) :
    ∀ (cs : List (ℤ × ℤ × ℤ)) (r : ℕ),
      genMats rwModel t r cs = cs.map fun c => mkTransform c (0, 0, 0) (-180 + 1 * t) := by
  intro cs
  induction cs with
  | nil => intro r; rfl
  | cons c cs ih => intro r; simp [genMats, drawTriple_rwModel, ih]

theorem hit_envTwoHits (a : Q) (c : ℤ × ℤ × ℤ) :
    envTwoHits.hit (mkTransform c (0, 0, 0) a) = gHit c := by
  obtain ⟨cx, cy, cz⟩ := c
  rw [envTwoHits, mkTransform, gHit]
  simp only
  have h0 : ((5 * (cx : Q), 5 * (cy : Q), 5 * (cz : Q)) = ((0 : Q), (0 : Q), (0 : Q)))
      ↔ ((cx, cy, cz) : ℤ × ℤ × ℤ) = (0, 0, 0) := by
    simp only [Prod.mk.injEq]
    constructor
    · rintro ⟨h1, h2, h3⟩
      refine ⟨?_, ?_, ?_⟩
      · exact_mod_cast (by linarith : (cx : Q) = 0)
      · exact_mod_cast (by linarith : (cy : Q) = 0)
      · exact_mod_cast (by linarith : (cz : Q) = 0)
    · rintro ⟨rfl, rfl, rfl⟩
      norm_num
  have h1 : ((5 * (cx : Q), 5 * (cy : Q), 5 * (cz : Q)) = ((5 : Q), (0 : Q), (0 : Q)))
      ↔ ((cx, cy, cz) : ℤ × ℤ × ℤ) = (1, 0, 0) := by
    simp only [Prod.mk.injEq]
    constructor
    · rintro ⟨ha, hb, hc⟩
      refine ⟨?_, ?_, ?_⟩
      · exact_mod_cast (by linarith : (cx : Q) = 1)
      · exact_mod_cast (by linarith : (cy : Q) = 0)
      · exact_mod_cast (by linarith : (cz : Q) = 0)
    · rintro ⟨rfl, rfl, rfl⟩
      norm_num
  rw [if_congr h0 rfl (if_congr h1 rfl rfl)]

set_option maxRecDepth 20000 in
theorem hitDistances_eval (t : Q) :
    hitDistances rwModel envTwoHits t = [3, 2] := by
  rw [hitDistances, tickInstances, genMats_rwModel, List.filterMap_map]
  have hfun : (envTwoHits.hit ∘ fun c => mkTransform c (0, 0, 0) (-180 + 1 * t)) = gHit := by
    funext c
    exact hit_envTwoHits _ c
  rw [hfun]
  decide

theorem tickUpdate_instances (R : RandModel) (env : TickEnv) (dt : Q) (st : AppState) :
    (tickUpdate R env dt st).instances = tickInstances R (st.mTime + dt) := by
  rw [tickUpdate]
  simp only [tickLoop_spec]

theorem tickUpdate_mAperture (R : RandModel) (env : TickEnv) (dt : Q) (st : AppState) :
    (tickUpdate R env dt st).mAperture = env.focalLength / fstopAt st.mFocalStop := by
  rw [tickUpdate]

theorem tickUpdate_mFocalLength (R : RandModel) (env : TickEnv) (dt : Q) (st : AppState) :
    (tickUpdate R env dt st).mFocalLength = env.focalLength := by
  rw [tickUpdate]

theorem tickUpdate_mFocalPlane (R : RandModel) (env : TickEnv) (dt : Q) (st : AppState) :
    (tickUpdate R env dt st).mFocalPlane =
      if st.mShiftDown ∧ (tickLoop R env st.mShiftDown (st.mTime + dt)).dist < fltMax
      then (tickLoop R env st.mShiftDown (st.mTime + dt)).dist
      else max st.mFocalPlane env.focalLength := by
  rw [tickUpdate]

theorem stepLoop_count (acc : Q) : (stepLoop acc).1 = ⌊acc / timestep⌋₊ := by
  have hts : (0 : Q) < timestep := by rw [timestep]; norm_num
  rw [stepLoop]
  split
  · rename_i h
    have h1 : (1 : Q) ≤ acc / timestep := (one_le_div hts).mpr h
    have h2 : (acc - timestep) / timestep = acc / timestep - 1 := by
      rw [sub_div, div_self (ne_of_gt hts)]
    have h3 := stepLoop_count (acc - timestep)
    simp only [h3, h2]
    have h4 : 1 ≤ ⌊acc / timestep⌋₊ := by
      rw [Nat.one_le_floor_iff]
      exact h1
    have h5 : ⌊acc / timestep - 1⌋₊ = ⌊acc / timestep⌋₊ - 1 :=
      Nat.floor_sub_one (acc / timestep)
    omega
  · rename_i h
    have h1 : acc / timestep < 1 := (div_lt_one hts).mpr (not_le.mp h)
    exact (Nat.floor_eq_zero.mpr h1).symm
termination_by (⌊acc * 60⌋).toNat
decreasing_by
  rename_i h
  have h1 : (1 : Q) ≤ acc * 60 := by
    rw [timestep] at h
    nlinarith
  have h2 : (1 : ℤ) ≤ ⌊acc * 60⌋ := by
    exact_mod_cast Int.le_floor.mpr (by exact_mod_cast h1)
  have h3 : (acc - timestep) * 60 = acc * 60 - 1 := by rw [timestep]; ring
  rw [h3, Int.floor_sub_one]
  omega

theorem stepLoop_rest (acc : Q) :
    (stepLoop acc).2 = acc - (stepLoop acc).1 * timestep := by
  rw [stepLoop]
  split
  · rename_i h
    have h3 := stepLoop_rest (acc - timestep)
    simp only [h3]
    push_cast
    ring
  · simp
termination_by (⌊acc * 60⌋).toNat
decreasing_by
  rename_i h
  have h1 : (1 : Q) ≤ acc * 60 := by
    rw [timestep] at h
    nlinarith
  have h2 : (1 : ℤ) ≤ ⌊acc * 60⌋ := by
    exact_mod_cast Int.le_floor.mpr (by exact_mod_cast h1)
  have h3 : (acc - timestep) * 60 = acc * 60 - 1 := by rw [timestep]; ring
  rw [h3, Int.floor_sub_one]
  omega

theorem gridCoords_mem_iff (x y z : ℤ) :
    (x, y, z) ∈ gridCoords ↔
      -4 ≤ x ∧ x ≤ 4 ∧ -4 ≤ y ∧ y ≤ 4 ∧ -4 ≤ z ∧ z ≤ 4 := by
  constructor
  · intro h
    rw [gridCoords] at h
    obtain ⟨zi, hzi, h⟩ := List.mem_flatMap.mp h
    obtain ⟨yi, hyi, h⟩ := List.mem_flatMap.mp h
    obtain ⟨xi, hxi, h⟩ := List.mem_map.mp h
    rw [List.mem_range] at hzi hyi hxi
    injection h with h1 h23
    injection h23 with h2 h3
    omega
  · intro hb
    rw [gridCoords]
    refine List.mem_flatMap.mpr ⟨(z + 4).toNat, List.mem_range.mpr (by omega), ?_⟩
    refine List.mem_flatMap.mpr ⟨(y + 4).toNat, List.mem_range.mpr (by omega), ?_⟩
    refine List.mem_map.mpr ⟨(x + 4).toNat, List.mem_range.mpr (by omega), ?_⟩
    simp only [Prod.mk.injEq]
    omega

set_option maxRecDepth 8000 in
theorem gridCoords_length : gridCoords.length = 729 := by decide

/-- C2: each per-frame update adds the elapsed time capped at 0.1 s to
the accumulator, then runs the fixed-tick update exactly
floor(accumulator / (1/60)) times, subtracting one 1/60 s quantum per
tick, so the update loop runs at a fixed 60 Hz with bounded catch-up. -/
theorem C2_fixed_timestep_update (now : Q) (c : FrameClock) :
    timestep = 1 / 60 ∧
    (updateFrame now c).1 =
      ⌊(c.accumulator + min (now - c.time) (1 / 10)) / timestep⌋₊ ∧
    (updateFrame now c).2.accumulator =
      c.accumulator + min (now - c.time) (1 / 10) -
        (updateFrame now c).1 * timestep ∧
    min (now - c.time) (1 / 10) ≤ 1 / 10 ∧
    (updateFrame now c).2.time = now := by
  refine ⟨rfl, ?_, ?_, min_le_right _ _, ?_⟩
  · simp only [updateFrame]
    exact stepLoop_count _
  · simp only [updateFrame]
    exact stepLoop_rest _
  · simp only [updateFrame]
    ring

/-- C8: pressing Escape exits fullscreen when in fullscreen mode and
quits the application otherwise, and never does both for one press. -/
theorem C8_escape_key (s fullscreen : Bool) :
    ((keyDown s fullscreen .escape).2 =
      if fullscreen then [Effect.setFullScreen false] else [Effect.quitApp]) ∧
    ¬(Effect.quitApp ∈ (keyDown s fullscreen .escape).2 ∧
      Effect.setFullScreen false ∈ (keyDown s fullscreen .escape).2) := by
  cases fullscreen <;> simp [keyDown]

/-- C4 counterexample: the number of distinct shader asset files loaded
by reload() is not five. -/
theorem C4_counterexample_not_five_assets :
    ¬ reloadAssetPaths.dedup.length = 5 := by decide

/-- C4 (amended): the application loads exactly eight distinct shader
asset files by path; reload() is invoked at the end of setup and again
whenever the R key is pressed. -/
theorem C4_eight_shader_assets :
    reloadAssetPaths.dedup.length = 8 ∧
    Effect.reloadShaders ∈ setupEffects ∧
    ∀ s fullscreen : Bool, (keyDown s fullscreen .keyR).2 = [Effect.reloadShaders] := by
  refine ⟨by decide, by decide, fun s fullscreen => rfl⟩

/-- C6: every execution of draw() performs, in this fixed order: the
scene pass (teapots then background) into the source Fbo, the horizontal
blur/downsample pass reading the source Fbo into the first blur Fbo, the
vertical blur pass reading the first blur Fbo into the second, and the
composite pass reading the source and second blur Fbos to the window;
no pass is skipped or reordered. -/
theorem C6_draw_pass_order (showBounds : Bool) :
    (draw showBounds).map RenderPass.target =
      [.fboSource, .fboBlur0, .fboBlur1, .window, .window] ∧
    (draw showBounds).take 4 =
      [scenePass showBounds, horizontalBlurPass, verticalBlurPass, compositePass] ∧
    (scenePass showBounds).ops.take 2 =
      [.teapotsInstanced (9 * 9 * 9), .background] ∧
    horizontalBlurPass.readsFrom = [.fboSource] ∧
    verticalBlurPass.readsFrom = [.fboBlur0] ∧
    compositePass.readsFrom = [.fboSource, .fboBlur1] := by
  cases showBounds <;> exact ⟨rfl, rfl, rfl, rfl, rfl, rfl⟩

/-- C3: in reload(), each of the six shader programs is compiled inside
its own try/catch: each result slot and console message depends only on
that program's own previous value and compile outcome (so one failure
never prevents the remaining programs from being attempted), a failed
program keeps its previously bound value and logs one message, and a
successful one is replaced. -/
theorem C3_reload_error_handling (env : ShaderEnv) (st : GlslState) :
    (reload env st).1.teapots =
      (batchBlock st.teapots env.teapotsRes "Failed to load teapots shader: ").1 ∧
    (reload env st).1.spheres =
      (batchBlock st.spheres env.spheresRes "Failed to load spheres shader: ").1 ∧
    (reload env st).1.background =
      (batchBlock st.background env.backgroundRes "Failed to load background shader: ").1 ∧
    (reload env st).1.blur0 =
      (progBlock st.blur0 env.hblurRes "Failed to load horizontal blur shader: ").1 ∧
    (reload env st).1.blur1 =
      (progBlock st.blur1 env.vblurRes "Failed to load vertical blur shader: ").1 ∧
    (reload env st).1.composite =
      (progBlock st.composite env.compositeRes "Failed to load composite shader: ").1 ∧
    (reload env st).2 =
      (batchBlock st.teapots env.teapotsRes "Failed to load teapots shader: ").2 ++
      (batchBlock st.spheres env.spheresRes "Failed to load spheres shader: ").2 ++
      (batchBlock st.background env.backgroundRes "Failed to load background shader: ").2 ++
      (progBlock st.blur0 env.hblurRes "Failed to load horizontal blur shader: ").2 ++
      (progBlock st.blur1 env.vblurRes "Failed to load vertical blur shader: ").2 ++
      (progBlock st.composite env.compositeRes "Failed to load composite shader: ").2 ∧
    (∀ (p : Prog) (e msg : String),
      batchBlock (some p) (.error e) msg = (some p, [msg ++ e])) ∧
    (∀ (old : Option Prog) (e msg : String),
      progBlock old (.error e) msg = (old, [msg ++ e])) ∧
    (∀ (p q : Prog) (msg : String),
      batchBlock (some p) (.ok q) msg = (some q, [])) ∧
    (∀ (old : Option Prog) (q : Prog) (msg : String),
      progBlock old (.ok q) msg = (some q, [])) := by
  refine ⟨rfl, rfl, rfl, rfl, rfl, rfl, rfl,
    fun p e msg => rfl, fun old e msg => rfl,
    fun p q msg => rfl, fun old q msg => rfl⟩

/-- C7: exactly 729 instances are processed per frame: the fixed tick
writes 729 instance matrices, one per grid cell with x, y, z each in
-4..4; when Shift is held the loop's nearest-hit value is the running
minimum of the ray tests over exactly those 729 transformed spheres; and
the draw pass issues the instanced teapot draw with count 9*9*9 = 729. -/
theorem C7_instance_count (R : RandModel) (env : TickEnv) (dt : Q) (st : AppState) :
    (tickUpdate R env dt st).instances.length = 729 ∧
    (tickInstances R (st.mTime + dt)).length = 729 ∧
    gridCoords.length = 729 ∧
    (∀ x y z : ℤ, (x, y, z) ∈ gridCoords ↔
      -4 ≤ x ∧ x ≤ 4 ∧ -4 ≤ y ∧ y ≤ 4 ∧ -4 ≤ z ∧ z ≤ 4) ∧
    (tickLoop R env st.mShiftDown (st.mTime + dt)).dist =
      (if st.mShiftDown then minDist fltMax (hitDistances R env (st.mTime + dt))
       else fltMax) ∧
    (∀ b : Bool, (scenePass b).ops.head? = some (.teapotsInstanced (9 * 9 * 9))) ∧
    9 * 9 * 9 = 729 := by
  refine ⟨?_, ?_, gridCoords_length, gridCoords_mem_iff, ?_, fun b => rfl, rfl⟩
  · rw [tickUpdate_instances, tickInstances, genMats_length, gridCoords_length]
  · rw [tickInstances, genMats_length, gridCoords_length]
  · rw [tickLoop_spec]
    rfl

/-- C9: after a fixed tick in which the auto-focus assignment does not
fire, the focal plane satisfies mFocalPlane >= mFocalLength, where
mFocalLength is the focal length computed that tick. -/
theorem C9_focal_plane_ge_focal_length (R : RandModel) (env : TickEnv) (dt : Q)
    (st : AppState) (h : autoFocusFired R env dt st = false) :
    (tickUpdate R env dt st).mFocalLength ≤ (tickUpdate R env dt st).mFocalPlane := by
  rw [tickUpdate_mFocalPlane, tickUpdate_mFocalLength]
  rw [autoFocusFired, decide_eq_false_iff_not] at h
  rw [if_neg h]
  exact le_max_right _ _

/-- C9 witness: with Shift not held, auto-focus does not fire and the
invariant holds at a concrete state. -/
theorem C9_focal_plane_witness :
    autoFocusFired rwModel envTwoHits 0 stNoShift = false ∧
    (tickUpdate rwModel envTwoHits 0 stNoShift).mFocalLength ≤
      (tickUpdate rwModel envTwoHits 0 stNoShift).mFocalPlane :=
  ⟨rfl, C9_focal_plane_ge_focal_length rwModel envTwoHits 0 stNoShift rfl⟩

/-- C10: for every f-stop selection index in 0..16, the access
fstops[mFocalStop] is in bounds, the divisor is non-zero, the aperture is
set to mFocalLength / fstops[mFocalStop], and the fstops table equals the
17 values offered by the UI list. -/
theorem C10_fstop_access (R : RandModel) (env : TickEnv) (dt : Q) (st : AppState)
    (h0 : 0 ≤ st.mFocalStop) (h1 : st.mFocalStop ≤ 16) :
    fstops.length = 17 ∧
    st.mFocalStop.toNat < fstops.length ∧
    fstopAt st.mFocalStop ≠ 0 ∧
    (tickUpdate R env dt st).mAperture = env.focalLength / fstopAt st.mFocalStop ∧
    fstops = uiFstops ∧
    uiFstopLabels.length = 17 := by
  have hlen : fstops.length = 17 := rfl
  have hidx : st.mFocalStop.toNat < fstops.length := by omega
  have hpos : ∀ j, j < 17 → fstops.getD j 0 ≠ 0 := by
    intro j hj
    interval_cases j <;> norm_num [fstops]
  refine ⟨hlen, hidx, ?_, tickUpdate_mAperture R env dt st, rfl, rfl⟩
  rw [fstopAt]
  exact hpos st.mFocalStop.toNat (by omega)

/-- C10 witness: the default f-stop index 8 is in range and the
conclusion holds at a concrete state. -/
theorem C10_fstop_access_witness :
    (0 : ℤ) ≤ stShift.mFocalStop ∧ stShift.mFocalStop ≤ 16 ∧
    fstopAt stShift.mFocalStop ≠ 0 ∧
    (tickUpdate rwModel envTwoHits 0 stShift).mAperture =
      envTwoHits.focalLength / fstopAt stShift.mFocalStop :=
  ⟨by decide, by decide,
   (C10_fstop_access rwModel envTwoHits 0 stShift (by decide) (by decide)).2.2.1,
   (C10_fstop_access rwModel envTwoHits 0 stShift (by decide) (by decide)).2.2.2.1⟩

/-- C5: the per-instance matrices are recomputed each tick from a
generator reseeded with the constant 12345, so two ticks with the same
accumulated simulation time produce identical matrices regardless of any
other state (incoming rng state, camera inputs, focal parameters); and
every instance's axis, base angle and angular rate come from the seeded
draw list, which does not depend on the time, so the matrices depend only
on the grid position, the seeded draws and the time. -/
theorem C5_tick_determinism (R : RandModel) (env1 env2 : TickEnv) (dt1 dt2 : Q)
    (s1 s2 : AppState) (h : s1.mTime + dt1 = s2.mTime + dt2) :
    (tickUpdate R env1 dt1 s1).instances = (tickUpdate R env2 dt2 s2).instances ∧
    ∀ t : Q, tickInstances R t =
      List.zipWith (fun c d => mkTransform c d.1 (d.2.1 + d.2.2 * t))
        gridCoords (tickDraws R) := by
  constructor
  · rw [tickUpdate_instances, tickUpdate_instances, h]
  · intro t
    rw [tickInstances, genMats_eq_zipWith, gridCoords_length, tickDraws]

/-- C5 witness: two concrete ticks with equal accumulated time (1+2 and
2+1) and different other state produce the same instance matrices. -/
theorem C5_tick_determinism_witness :
    (tickUpdate rwModel envTwoHits 2 stTimeOne).instances =
      (tickUpdate rwModel envTwoHits 1 stTimeTwo).instances :=
  (C5_tick_determinism rwModel envTwoHits envTwoHits 2 1 stTimeOne stTimeTwo
    (by norm_num [stTimeOne, stTimeTwo])).1

/-- C1: in a fixed tick with Shift held, if the mouse ray intersects at
least one of the 729 instance bounding spheres (all hit distances being
below FLT_MAX), the focal plane is set to the smallest near-intersection
distance among the intersected spheres; if the ray intersects none of
them the focal plane is left at its pre-auto-focus value; and when Shift
is not held auto-focus never modifies the focal plane. -/
theorem C1_autofocus_min (R : RandModel) (env : TickEnv) (dt : Q) (st : AppState) :
    (st.mShiftDown = true →
      (hitDistances R env (st.mTime + dt) ≠ [] →
        (∀ m ∈ hitDistances R env (st.mTime + dt), m < fltMax) →
        ((tickUpdate R env dt st).mFocalPlane ∈ hitDistances R env (st.mTime + dt) ∧
         ∀ m ∈ hitDistances R env (st.mTime + dt),
           (tickUpdate R env dt st).mFocalPlane ≤ m)) ∧
      (hitDistances R env (st.mTime + dt) = [] →
        (tickUpdate R env dt st).mFocalPlane = max st.mFocalPlane env.focalLength)) ∧
    (st.mShiftDown = false →
      (tickUpdate R env dt st).mFocalPlane = max st.mFocalPlane env.focalLength) := by
  constructor
  · intro hs
    have hd : (tickLoop R env st.mShiftDown (st.mTime + dt)).dist =
        minDist fltMax (hitDistances R env (st.mTime + dt)) := by
      rw [tickLoop_dist, hs, if_pos rfl]
    constructor
    · intro hne hlt
      obtain ⟨m0, hm0⟩ := List.exists_mem_of_ne_nil _ hne
      have hmin : minDist fltMax (hitDistances R env (st.mTime + dt)) < fltMax :=
        lt_of_le_of_lt (minDist_le_mem _ fltMax m0 hm0) (hlt m0 hm0)
      have hplane : (tickUpdate R env dt st).mFocalPlane =
          minDist fltMax (hitDistances R env (st.mTime + dt)) := by
        rw [tickUpdate_mFocalPlane, hd, if_pos ⟨hs, hmin⟩]
      refine ⟨?_, ?_⟩
      · rw [hplane]
        rcases minDist_eq_or_mem (hitDistances R env (st.mTime + dt)) fltMax with he | hm
        · rw [he] at hmin
          exact absurd hmin (lt_irrefl _)
        · exact hm
      · intro m hm
        rw [hplane]
        exact minDist_le_mem _ fltMax m hm
    · intro hnil
      have hd0 : (tickLoop R env st.mShiftDown (st.mTime + dt)).dist = fltMax := by
        rw [hd, hnil]
        rfl
      rw [tickUpdate_mFocalPlane, hd0,
        if_neg (fun hc => lt_irrefl fltMax hc.2)]
  · intro hs
    rw [tickUpdate_mFocalPlane,
      if_neg (fun hc => Bool.false_ne_true (hs ▸ hc.1))]

/-- C1 witness: at a concrete tick with Shift held and two intersected
instances (distances 3 and 2), the focal plane becomes the minimum. -/
theorem C1_autofocus_min_witness :
    (tickUpdate rwModel envTwoHits 0 stShift).mFocalPlane ∈
      hitDistances rwModel envTwoHits (stShift.mTime + 0) ∧
    ∀ m ∈ hitDistances rwModel envTwoHits (stShift.mTime + 0),
      (tickUpdate rwModel envTwoHits 0 stShift).mFocalPlane ≤ m :=
  ((C1_autofocus_min rwModel envTwoHits 0 stShift).1 rfl).1
    (by rw [hitDistances_eval]; exact List.cons_ne_nil _ _)
    (by
      rw [hitDistances_eval]
      intro m hm
      rcases List.mem_cons.mp hm with rfl | hm2
      · norm_num [fltMax]
      · rcases List.mem_cons.mp hm2 with rfl | hm3
        · norm_num [fltMax]
        · simp at hm3)

end DepthOfField
